import Mathlib

/-!
Verification of the core pipeline of the Sleep Disorder Detection app
(`DA.py`): input collection, preprocessing (sqrt rescaling + column drop),
the per-call label-encoding transformer, result mapping and
recommendations, orchestration, and artifact loading.

Single-row pandas data frames are embedded column-major as association
lists from column name to the column's list of cell values; cell values
are abstracted to a type parameter `α` (the real frames mix strings and
numbers; every property proved here is independent of the cell
representation). `np.sqrt` is embedded separately as `Real.sqrt` on `ℝ`
for the numerical claims. Prediction labels (floats 0.0/1.0/2.0 in the
source) are embedded as `ℚ`, which represents these values exactly.
-/

/-- A pandas DataFrame, column-major: list of (column name, cell values).
The frames built by `get_user_input` are single-row, so each cell list is
a singleton. -/
abbrev DataFrame (α : Type) : Type := List (String × List α)

/-- Column names of a frame, in order (`data.columns`). -/
def colNames {α : Type} (f : DataFrame α) : List String :=
  f.map Prod.fst

/-- Column access `data[name]`, defaulting to the empty column when the
name is absent (the source only accesses columns that exist). -/
def getColD {α : Type} (f : DataFrame α) (n : String) : List α :=
  (f.lookup n).getD []

/-- Column assignment `data[name] = col`: pandas replaces the column in
place when the name exists, otherwise appends it as the last column. -/
def setCol {α : Type} (f : DataFrame α) (n : String) (col : List α) : DataFrame α :=
  if f.any (fun c => c.1 == n) then
    f.map (fun c => if c.1 == n then (n, col) else c)
  else
    f ++ [(n, col)]

/-- `data.drop(columns=[name])`: removes the named column, keeping order. -/
def dropCol {α : Type} (f : DataFrame α) (n : String) : DataFrame α :=
  f.filter (fun c => c.1 != n)

/-- The 12-field single-row frame returned by `get_user_input`
(`DA.py` lines 158-171), with the source's column names and order. -/
def input_data {α : Type} (g a sd occ qos pa sl bmi sys dia hr ds : α) : DataFrame α :=
  [("Gender", [g]),
   ("Age", [a]),
   ("Sleep Duration", [sd]),
   ("Occupation", [occ]),
   ("Quality of Sleep", [qos]),
   ("Physical Activity Level", [pa]),
   ("Stress Level", [sl]),
   ("BMI Category", [bmi]),
   ("Systolic", [sys]),
   ("Diastolic", [dia]),
   ("Heart Rate", [hr]),
   ("Daily Steps", [ds])]

/-- `self.DISORDER_MAPPING` from `setup_constants` (`DA.py` lines 36-40):
label → (disorder name, display color). Float keys 0.0/1.0/2.0 are
embedded as the exact rationals 0/1/2. -/
def DISORDER_MAPPING : List (ℚ × (String × String)) :=
  [(0, ("Insomnia", "red")),
   (1, ("No Disorder", "green")),
   (2, ("Sleep Apnea", "orange"))]

/-- The label lookup performed by `display_prediction` (`DA.py` line 175):
`self.DISORDER_MAPPING.get(prediction[0], ("Unknown", "gray"))`. -/
def mapResult (label : ℚ) : String × String :=
  (DISORDER_MAPPING.lookup label).getD ("Unknown", "gray")

/-- The static `recommendations` dict of `display_recommendations`
(`DA.py` lines 184-203), with the source's exact entries and order. -/
def recommendations_table : List (String × List String) :=
  [("Insomnia",
    ["Maintain a consistent sleep schedule",
     "Create a relaxing bedtime routine",
     "Avoid screens before bedtime",
     "Consider consulting a sleep specialist"]),
   ("Sleep Apnea",
    ["Sleep on your side instead of your back",
     "Maintain a healthy weight",
     "Consider using a CPAP machine",
     "Consult a healthcare provider for proper diagnosis"]),
   ("No Disorder",
    ["Continue maintaining good sleep habits",
     "Stay physically active",
     "Monitor sleep quality regularly",
     "Practice stress management"])]

/-- The guidance list `display_recommendations` renders for a disorder
name (`DA.py` lines 205-208): the dict entry when `disorder in
recommendations`, otherwise nothing (the empty list). -/
def displayedRecommendations (disorder : String) : List String :=
  (recommendations_table.lookup disorder).getD []

/-- C1: the label lookup of `display_prediction` is total: labels 0, 1, 2
map to ("Insomnia", red), ("No Disorder", green), ("Sleep Apnea", orange)
from the fixed table, and every other label yields the defined fallback
("Unknown", gray) — never an error. -/
theorem disorder_mapping_total (label : ℚ) :
    mapResult label =
      if label = 0 then ("Insomnia", "red")
      else if label = 1 then ("No Disorder", "green")
      else if label = 2 then ("Sleep Apnea", "orange")
      else ("Unknown", "gray") := by
  by_cases h0 : label = 0
  · subst h0; decide
  by_cases h1 : label = 1
  · subst h1; decide
  by_cases h2 : label = 2
  · subst h2; decide
  have e0 : (label == (0 : ℚ)) = false := beq_eq_false_iff_ne.mpr h0
  have e1 : (label == (1 : ℚ)) = false := beq_eq_false_iff_ne.mpr h1
  have e2 : (label == (2 : ℚ)) = false := beq_eq_false_iff_ne.mpr h2
  simp [mapResult, DISORDER_MAPPING, List.lookup, e0, e1, e2, h0, h1, h2]

/-- C6 counterexample: the claim says the recommendations list for
"Insomnia" has exactly 3 entries, but the source's static list has 4. -/
theorem recommendations_three_entries_false :
    ¬ (displayedRecommendations "Insomnia").length = 3 := by
  decide

/-- C6 (amended): the recommendations mapping is a static function from
disorder name to an ordered list of guidance strings with exactly 4
entries for each of "Insomnia", "Sleep Apnea", and "No Disorder", and an
empty list for "Unknown". -/
theorem recommendations_static_counts :
    (displayedRecommendations "Insomnia").length = 4 ∧
    (displayedRecommendations "Sleep Apnea").length = 4 ∧
    (displayedRecommendations "No Disorder").length = 4 ∧
    displayedRecommendations "Unknown" = [] := by
  decide

/-- C7: when the classifier returns label 1.0, the result mapping yields
the disorder named "No Disorder" with color green, and its displayed
recommendations list has exactly 4 entries. -/
theorem label_one_no_disorder :
    mapResult 1 = ("No Disorder", "green") ∧
    (displayedRecommendations "No Disorder").length = 4 := by
  constructor
  · decide
  · decide

/-- The classes a freshly fitted sklearn `LabelEncoder` derives from a
column: `np.unique(col)`, the distinct values in sorted order. -/
def leClasses {α : Type} [LinearOrder α] (col : List α) : List α :=
  List.insertionSort (· ≤ ·) col.dedup

/-- `LabelEncoder.fit_transform` on one column, with the encoder's fitted
state made explicit: it refits from the column itself (ignoring any
previous fit) and maps each value to its index among the sorted distinct
values (`DA.py` line 16 applies this per column). -/
def fit_transform {α : Type} [LinearOrder α] (_s : Option (List α)) (col : List α) :
    Option (List α) × List Nat :=
  (some (leClasses col), col.map (fun v => (leClasses col).indexOf v))

/-- `LabelEncoderTransformer.transform` (`DA.py` lines 15-16):
`X.apply(self.encoder.fit_transform)` — the single shared encoder is
refitted on every column in turn, threading its mutable state left to
right; the output frame keeps the column names. -/
def LET_transform {α : Type} [LinearOrder α] :
    Option (List α) → DataFrame α → Option (List α) × DataFrame Nat
  | s, [] => (s, [])
  | s, c :: rest =>
    let r := fit_transform s c.2
    let rr := LET_transform r.1 rest
    (rr.1, (c.1, r.2) :: rr.2)

/-- The pre-transform of `preprocess_input` (`DA.py` lines 114-115):
append the derived column `data["Sleep Duration Sqrt"] =
np.sqrt(data["Sleep Duration"])`, then `data.drop(columns=["Sleep
Duration"])`. The elementwise square root on the cell representation is
passed as `sq` (it is `Real.sqrt` on the real-number embedding, see
`npSqrt`). -/
def preprocessed {α : Type} (sq : α → α) (data : DataFrame α) : DataFrame α :=
  dropCol (setCol data "Sleep Duration Sqrt" ((getColD data "Sleep Duration").map sq)) "Sleep Duration"

/-- `preprocess_input` (`DA.py` lines 112-119): the pre-transform followed
by `self.preprocessor.transform(data)` on the loaded, opaque transformer
`tr`; the surrounding try/except turns any transformer failure into
`None`, so `tr` is `Option`-valued. -/
def preprocess_input {α β : Type} (tr : DataFrame α → Option β) (sq : α → α)
    (data : DataFrame α) : Option β :=
  tr (preprocessed sq data)

/-- Helper: the output component of `LET_transform` ignores the incoming
encoder state and encodes each column purely from its own values. -/
lemma LET_transform_snd {α : Type} [LinearOrder α] (s : Option (List α)) (X : DataFrame α) :
    (LET_transform s X).2 = X.map (fun c => (c.1, c.2.map (fun v => (leClasses c.2).indexOf v))) := by
  induction X generalizing s with
  | nil => rfl
  | cons c rest ih => simp [LET_transform, fit_transform, ih]

/-- Helper: a singleton column encodes to the singleton `[0]`: its class
list is just its one value, which sits at index 0. -/
lemma encode_singleton {α : Type} [LinearOrder α] (v : α) :
    [v].map (fun w => (leClasses [v]).indexOf w) = [0] := by
  have h : leClasses [v] = [v] := by simp [leClasses]
  simp [h]

/-- Helper: every single-row frame encodes to all-zero columns. -/
lemma LET_transform_single_row {α : Type} [LinearOrder α] (s : Option (List α))
    (X : DataFrame α) (hX : ∀ c ∈ X, c.2.length = 1) :
    (LET_transform s X).2 = X.map (fun c => (c.1, ([0] : List Nat))) := by
  rw [LET_transform_snd]
  apply List.map_congr_left
  intro c hc
  obtain ⟨v, hv⟩ := List.length_eq_one.mp (hX c hc)
  rw [hv]
  rw [encode_singleton]

/-- C2: the encoder is refit per call from the input's own values, so on
any single-row frame `LabelEncoderTransformer.transform` encodes every
column to 0 whatever value it holds; hence two single-row frames with the
same column names — e.g. differing only in Gender "Male" vs "Female" —
produce identical encoded columns, from any encoder states. -/
theorem label_encoder_single_row {α : Type} [LinearOrder α]
    (s t : Option (List α)) (X Y : DataFrame α)
    (hX : ∀ c ∈ X, c.2.length = 1) (hY : ∀ c ∈ Y, c.2.length = 1)
    (hnames : colNames X = colNames Y) :
    (LET_transform s X).2 = X.map (fun c => (c.1, ([0] : List Nat))) ∧
    (LET_transform s X).2 = (LET_transform t Y).2 := by
  have key : ∀ (Z : DataFrame α), Z.map (fun c => (c.1, ([0] : List Nat))) =
      (colNames Z).map (fun n => (n, ([0] : List Nat))) := by
    intro Z
    simp [colNames, List.map_map]
  refine ⟨LET_transform_single_row s X hX, ?_⟩
  rw [LET_transform_single_row s X hX, LET_transform_single_row t Y hY, key X, key Y, hnames]

/-- C2 witness: concrete single-row frames differing only in the Gender
value ("Male" vs "Female") get identical encodings. -/
theorem label_encoder_single_row_witness :
    (LET_transform none [("Gender", ["Male"])]).2 =
      (LET_transform none [("Gender", ["Female"])]).2 :=
  (label_encoder_single_row none none [("Gender", ["Male"])] [("Gender", ["Female"])]
    (by decide) (by decide) (by decide)).2

/-- C3: on the 12-field input frame, `preprocess_input` hands the loaded
transformer exactly the 11 original fields other than "Sleep Duration",
in order, plus the derived "Sleep Duration Sqrt" column; the raw hours
column is dropped before the delegation. -/
theorem preprocess_drops_raw_hours {α β : Type} (sq : α → α) (tr : DataFrame α → Option β)
    (g a sd occ qos pa sl bmi sys dia hr ds : α) :
    preprocess_input tr sq (input_data g a sd occ qos pa sl bmi sys dia hr ds) =
      tr (preprocessed sq (input_data g a sd occ qos pa sl bmi sys dia hr ds)) ∧
    preprocessed sq (input_data g a sd occ qos pa sl bmi sys dia hr ds) =
      [("Gender", [g]),
       ("Age", [a]),
       ("Occupation", [occ]),
       ("Quality of Sleep", [qos]),
       ("Physical Activity Level", [pa]),
       ("Stress Level", [sl]),
       ("BMI Category", [bmi]),
       ("Systolic", [sys]),
       ("Diastolic", [dia]),
       ("Heart Rate", [hr]),
       ("Daily Steps", [ds]),
       ("Sleep Duration Sqrt", [sq sd])] :=
  ⟨rfl, rfl⟩

/-- The transform stage as run by the app: the sqrt pre-transform followed
by the per-call label encoding, with the encoder's mutable state exposed. -/
def transform_stage {α : Type} [LinearOrder α] (sq : α → α) (s : Option (List α))
    (data : DataFrame α) : Option (List α) × DataFrame Nat :=
  LET_transform s (preprocessed sq data)

/-- C8: the transform stage is deterministic: running it a second time on
the same input — from the encoder state the first run left behind — yields
a bit-identical encoded output, because each column is re-encoded from its
own values only. -/
theorem transform_stage_deterministic {α : Type} [LinearOrder α] (sq : α → α)
    (s : Option (List α)) (data : DataFrame α) :
    (transform_stage sq (transform_stage sq s data).1 data).2 =
      (transform_stage sq s data).2 := by
  unfold transform_stage
  rw [LET_transform_snd, LET_transform_snd]

/-- Pipeline stages whose invocation `run` can trigger after a submit
(`DA.py` lines 215-225); the trace below records which were invoked. -/
inductive Stage where
  | preprocessCall
  | predictCall
  deriving DecidableEq

/-- The submitted branch of `run` (`DA.py` lines 215-225): build the input
frame, call `preprocess_input`, and only `if processed_data is not None`
call `self.model.predict` (whose exceptions are caught, modelled by an
`Option`-valued `predict`) and map the resulting label for display. The
first component is the trace of stage invocations. -/
def run_pipeline {α β : Type} (tr : DataFrame α → Option β) (sq : α → α)
    (predict : β → Option ℚ) (data : DataFrame α) :
    List Stage × Option (String × String) :=
  match preprocess_input tr sq data with
  | none => ([Stage.preprocessCall], none)
  | some fv =>
    match predict fv with
    | none => ([Stage.preprocessCall, Stage.predictCall], none)
    | some label => ([Stage.preprocessCall, Stage.predictCall], some (mapResult label))

/-- C4: the orchestrator short-circuits on transform failure: when
`preprocess_input` yields no feature vector the trace stops at the
preprocess stage (predict is never invoked), and predict appears in the
trace only when a feature vector was successfully produced. -/
theorem run_short_circuits {α β : Type} (tr : DataFrame α → Option β) (sq : α → α)
    (predict : β → Option ℚ) (data : DataFrame α) :
    (preprocess_input tr sq data = none →
      (run_pipeline tr sq predict data).1 = [Stage.preprocessCall]) ∧
    (Stage.predictCall ∈ (run_pipeline tr sq predict data).1 →
      ∃ fv, preprocess_input tr sq data = some fv) := by
  unfold run_pipeline
  cases h : preprocess_input tr sq data with
  | none => exact ⟨fun _ => rfl, by simp⟩
  | some fv =>
    exact ⟨fun hn => absurd hn (by simp), fun _ => ⟨fv, rfl⟩⟩

/-- A transformer stand-in that always fails (e.g. the artifact rejects
the record shape), used to exercise the short-circuit concretely. -/
def failing_transformer : DataFrame ℚ → Option (List ℚ) := fun _ => none

/-- A classifier stand-in returning label 1 on every feature vector. -/
def constant_classifier : List ℚ → Option ℚ := fun _ => some 1

/-- C4 witness: with a failing transform stage on a concrete input frame,
the run trace is exactly the preprocess call — predict is never invoked. -/
theorem run_short_circuits_witness :
    (run_pipeline failing_transformer id constant_classifier
      (input_data 0 0 0 0 0 0 0 0 0 0 0 0)).1 = [Stage.preprocessCall] :=
  (run_short_circuits failing_transformer id constant_classifier
    (input_data 0 0 0 0 0 0 0 0 0 0 0 0)).1 rfl

/-- The elementwise square root `np.sqrt` applied by `preprocess_input`
(`DA.py` line 114), on the real-number embedding of the float cells. -/
noncomputable def npSqrt (x : ℝ) : ℝ := Real.sqrt x

/-- C9: the sqrt pre-transform satisfies the point values: sqrt 0 = 0
(defined, no error), sqrt 9 = 3, and sqrt 7.5 is within 1e-4 of 2.7386. -/
theorem npSqrt_point_values :
    npSqrt 0 = 0 ∧ npSqrt 9 = 3 ∧ |npSqrt 7.5 - 2.7386| ≤ 1e-4 := by
  refine ⟨Real.sqrt_zero, ?_, ?_⟩
  · rw [npSqrt, show (9 : ℝ) = 3 ^ 2 by norm_num, Real.sqrt_sq (by norm_num : (0:ℝ) ≤ 3)]
  · have h0 : (0 : ℝ) ≤ 7.5 := by norm_num
    have hs := Real.sq_sqrt h0
    have hn := Real.sqrt_nonneg (7.5 : ℝ)
    rw [npSqrt, abs_le]
    constructor <;> nlinarith [hs, hn]

/-- The Gender options of the form (`DA.py` line 126). -/
def GENDERS : List String := ["Male", "Female"]

/-- `self.OCCUPATIONS` (`DA.py` lines 33-34). -/
def OCCUPATIONS : List String :=
  ["Others", "Doctor", "Teacher", "Nurse", "Engineer", "Accountant", "Lawyer", "Salesperson"]

/-- `self.BMI_CATEGORIES` (`DA.py` line 35). -/
def BMI_CATEGORIES : List String := ["Normal Weight", "Overweight", "Obese"]

/-- A raw 12-field input record, before validation. Integer-valued widgets
are embedded as `ℤ` and the float-valued sleep duration as `ℚ`. -/
structure RawInput where
  gender : String
  age : ℤ
  sleepDuration : ℚ
  occupation : String
  qualityOfSleep : ℤ
  physicalActivityLevel : ℤ
  stressLevel : ℤ
  bmiCategory : String
  systolic : ℤ
  diastolic : ℤ
  heartRate : ℤ
  dailySteps : ℤ
  deriving DecidableEq

/-- A validation failure naming the offending field. -/
structure ValidationError where
  field : String
  reason : String
  deriving DecidableEq

/-- Whether a given named field of the record violates its declared
constraint, per the widget bounds of `get_user_input` (`DA.py` lines
121-171): Gender from its two options, Age in [18,100], Sleep Duration in
[0,24], Occupation from `OCCUPATIONS`, Quality of Sleep in [1,10],
Physical Activity Level ≥ 0, Stress Level in [1,10], BMI Category from
`BMI_CATEGORIES`, Systolic in [70,200], Diastolic in [40,130], Heart Rate
in [40,200], Daily Steps in [0,50000]; false for names that are not
fields. -/
def fieldViolation (r : RawInput) (f : String) : Bool :=
  if f = "Gender" then decide (r.gender ∉ GENDERS)
  else if f = "Age" then decide (r.age < 18 ∨ 100 < r.age)
  else if f = "Sleep Duration" then decide (r.sleepDuration < 0 ∨ 24 < r.sleepDuration)
  else if f = "Occupation" then decide (r.occupation ∉ OCCUPATIONS)
  else if f = "Quality of Sleep" then decide (r.qualityOfSleep < 1 ∨ 10 < r.qualityOfSleep)
  else if f = "Physical Activity Level" then decide (r.physicalActivityLevel < 0)
  else if f = "Stress Level" then decide (r.stressLevel < 1 ∨ 10 < r.stressLevel)
  else if f = "BMI Category" then decide (r.bmiCategory ∉ BMI_CATEGORIES)
  else if f = "Systolic" then decide (r.systolic < 70 ∨ 200 < r.systolic)
  else if f = "Diastolic" then decide (r.diastolic < 40 ∨ 130 < r.diastolic)
  else if f = "Heart Rate" then decide (r.heartRate < 40 ∨ 200 < r.heartRate)
  else if f = "Daily Steps" then decide (r.dailySteps < 0 ∨ 50000 < r.dailySteps)
  else false

/-- The schema's 12 fields in widget order, each with the reason text
reported when its constraint is violated. -/
def FIELD_ORDER : List (String × String) :=
  [("Gender", "value not in enumerated set"),
   ("Age", "out of range 18 to 100"),
   ("Sleep Duration", "out of range 0 to 24"),
   ("Occupation", "value not in enumerated set"),
   ("Quality of Sleep", "out of range 1 to 10"),
   ("Physical Activity Level", "below minimum 0"),
   ("Stress Level", "out of range 1 to 10"),
   ("BMI Category", "value not in enumerated set"),
   ("Systolic", "out of range 70 to 200"),
   ("Diastolic", "out of range 40 to 130"),
   ("Heart Rate", "out of range 40 to 200"),
   ("Daily Steps", "out of range 0 to 50000")]

/-- Modelled from the spec: the Input Schema validator (`validate(raw) ->
ValidatedInput`, failing with `ValidationError{field, reason}` on the
first constraint violation) is not a separate function in the source — the
constraints it checks are the widget bounds declared in `get_user_input`
(`DA.py` lines 121-171), enforced there by the UI layer. The model scans
the fields in widget order and reports the first violated one. -/
def validate (r : RawInput) : Except ValidationError RawInput :=
  match FIELD_ORDER.find? (fun p => fieldViolation r p.1) with
  | some p => Except.error ⟨p.1, p.2⟩
  | none => Except.ok r

/-- The numeric fields of the schema. -/
def NUMERIC_FIELDS : List String :=
  ["Age", "Sleep Duration", "Quality of Sleep", "Physical Activity Level",
   "Stress Level", "Systolic", "Diastolic", "Heart Rate", "Daily Steps"]

/-- Scenario B of the spec: the source's default form values with Age
changed to 17 (all other fields in range). -/
def scenarioB_input : RawInput :=
  ⟨"Male", 17, 7.5, "Others", 7, 30, 5, "Normal Weight", 120, 80, 70, 10000⟩

/-- Helper: an error returned by `validate` always names a field whose
constraint the record actually violates. -/
lemma validate_error_names_violation (r : RawInput) (e : ValidationError)
    (h : validate r = Except.error e) : fieldViolation r e.field = true := by
  unfold validate at h
  cases hf : FIELD_ORDER.find? (fun p => fieldViolation r p.1) with
  | none => rw [hf] at h; exact Except.noConfusion h
  | some p =>
    rw [hf] at h
    injection h with he
    subst he
    have hv := List.find?_some hf
    simpa using hv

/-- Helper: a record accepted by `validate` violates none of the schema's
field constraints. -/
lemma validate_ok_no_violation (r v : RawInput)
    (h : validate r = Except.ok v) :
    ∀ p ∈ FIELD_ORDER, fieldViolation r p.1 = false := by
  intro p hp
  unfold validate at h
  cases hf : FIELD_ORDER.find? (fun q => fieldViolation r q.1) with
  | some q => rw [hf] at h; exact Except.noConfusion h
  | none => simpa using List.find?_eq_none.mp hf p hp

/-- C5: range validation: every error returned by `validate` names a
violated field; whenever some numeric field is outside its declared range,
`validate` fails with a ValidationError; and the concrete input with
Age = 17 is rejected with a ValidationError naming "Age". -/
theorem validate_range_errors :
    (∀ r e, validate r = Except.error e → fieldViolation r e.field = true) ∧
    (∀ r f, f ∈ NUMERIC_FIELDS → fieldViolation r f = true →
      ∃ e, validate r = Except.error e) ∧
    validate scenarioB_input = Except.error ⟨"Age", "out of range 18 to 100"⟩ := by
  refine ⟨validate_error_names_violation, ?_, rfl⟩
  intro r f hf hv
  cases hval : validate r with
  | error e => exact ⟨e, rfl⟩
  | ok v =>
    exfalso
    have hall := validate_ok_no_violation r v hval
    fin_cases hf
    · exact absurd (hall ("Age", "out of range 18 to 100") (by simp [FIELD_ORDER])) (by simp [hv])
    · exact absurd (hall ("Sleep Duration", "out of range 0 to 24") (by simp [FIELD_ORDER])) (by simp [hv])
    · exact absurd (hall ("Quality of Sleep", "out of range 1 to 10") (by simp [FIELD_ORDER])) (by simp [hv])
    · exact absurd (hall ("Physical Activity Level", "below minimum 0") (by simp [FIELD_ORDER])) (by simp [hv])
    · exact absurd (hall ("Stress Level", "out of range 1 to 10") (by simp [FIELD_ORDER])) (by simp [hv])
    · exact absurd (hall ("Systolic", "out of range 70 to 200") (by simp [FIELD_ORDER])) (by simp [hv])
    · exact absurd (hall ("Diastolic", "out of range 40 to 130") (by simp [FIELD_ORDER])) (by simp [hv])
    · exact absurd (hall ("Heart Rate", "out of range 40 to 200") (by simp [FIELD_ORDER])) (by simp [hv])
    · exact absurd (hall ("Daily Steps", "out of range 0 to 50000") (by simp [FIELD_ORDER])) (by simp [hv])

/-- C5 witness: the Age = 17 record has a numeric field out of its range,
so validation fails on it. -/
theorem validate_range_errors_witness :
    ∃ e, validate scenarioB_input = Except.error e :=
  validate_range_errors.2.1 scenarioB_input "Age" (by decide) (by decide)

/-- The classifier artifact path (`DA.py` line 26). -/
def MODEL_FILE : String := "sleep_disorder_random_forest_model.pkl"

/-- The preprocessor artifact path (`DA.py` line 27). -/
def PREPROCESSOR_FILE : String := "preprocessor.pkl"

/-- Outcome of app startup: either the script is stopped with an error
message, or the app is serving with both artifacts loaded. -/
inductive StartResult (A : Type) where
  | stopped (msg : String)
  | serving (model : A) (preprocessor : A)

/-- `load_models` (`DA.py` lines 24-30), called from `__init__` before any
request handling: `joblib.load` both artifact files inside a try block; a
`FileNotFoundError` from either load is caught, reported with `st.error`,
and `st.stop()` halts the script run, so `run` is never reached. The file
system is modelled by `fs`, giving the deserialized artifact when the
file is present. -/
def load_models {A : Type} (fs : String → Option A) : StartResult A :=
  match fs MODEL_FILE with
  | none => StartResult.stopped ("Error loading model files: " ++ MODEL_FILE)
  | some m =>
    match fs PREPROCESSOR_FILE with
    | none => StartResult.stopped ("Error loading model files: " ++ PREPROCESSOR_FILE)
    | some p => StartResult.serving m p

/-- C10: if either artifact file is missing at startup, loading stops the
process with the missing-artifact error message before any request is
accepted; and the app serves only with both artifacts actually loaded
from their files — the pipeline is never entered without them. -/
theorem load_models_gates_startup {A : Type} (fs : String → Option A) :
    ((fs MODEL_FILE = none ∨ fs PREPROCESSOR_FILE = none) →
      ∃ msg, load_models fs = StartResult.stopped msg) ∧
    (∀ m p, load_models fs = StartResult.serving m p →
      fs MODEL_FILE = some m ∧ fs PREPROCESSOR_FILE = some p) := by
  unfold load_models
  cases hm : fs MODEL_FILE with
  | none => exact ⟨fun _ => ⟨_, rfl⟩, fun m p h => StartResult.noConfusion h⟩
  | some m =>
    cases hp : fs PREPROCESSOR_FILE with
    | none => exact ⟨fun _ => ⟨_, rfl⟩, fun m' p h => StartResult.noConfusion h⟩
    | some p =>
      refine ⟨?_, ?_⟩
      · rintro (h | h) <;> exact Option.noConfusion h
      · intro m' p' h
        injection h with e1 e2
        subst e1
        subst e2
        exact ⟨rfl, rfl⟩

/-- A file system with neither artifact present. -/
def empty_artifact_store : String → Option Unit := fun _ => none

/-- C10 witness: with no artifact files present, startup stops with an
error message. -/
theorem load_models_gates_startup_witness :
    ∃ msg, load_models empty_artifact_store = StartResult.stopped msg :=
  (load_models_gates_startup empty_artifact_store).1 (Or.inl rfl)
